import Mathlib

/-!
Shallow embedding of the dispatch / incident-lifecycle core of the
Intervention-Simulation repository (src/agent_sim_v2.py) together with the
travel-time lookup (src/travel_time_calc.py), and proofs settling the
specification claims about them.

Modelling conventions:
* Python object references are modelled as integer ids (`Officer.station`,
  `Incident.station`, `Officer.assigned_incident`, `Incident.assigned_officer`
  hold the referenced entity's id).
* shapely geometry is abstracted: a point is a pair of rationals, a
  polygon's `contains` test is a boolean membership function, and
  `a.distance(b)` (Euclidean) is replaced by the squared distance `dist2`.
  Every use of distance in the source is an order comparison, and squaring
  is strictly monotone on nonnegative reals, so all comparisons, minima and
  sort orders are unchanged by this substitution.
* clock times (`datetime.time`) are minutes since midnight; full timestamps
  (`datetime.datetime`) are records of calendar fields compared
  lexicographically, exactly as Python compares datetimes.
* floats (travel_time, resolution_time, distances) are rationals.
-/

/-- Embeds the Python enum IncidentType (agent_sim_v2.py lines 11-26). -/
inductive IncidentType
  | IMMEDIATE
  | PROMPT
  | SCHEDULED
  | APPOINTMENT
  | NO_RESPONSE
deriving DecidableEq, Repr

/-- Numeric payload of each IncidentType member (IMMEDIATE = 1 ... NO_RESPONSE = 5). -/
def IncidentType.value : IncidentType → ℤ
  | .IMMEDIATE => 1
  | .PROMPT => 2
  | .SCHEDULED => 3
  | .APPOINTMENT => 4
  | .NO_RESPONSE => 5

/-- Embeds the Python enum IncidentStatus (agent_sim_v2.py lines 29-42). -/
inductive IncidentStatus
  | REPORTED
  | EN_ROUTE
  | ATTENDED
  | RESOLVED
deriving DecidableEq, Repr

/-- Numeric payload of each IncidentStatus member (REPORTED = 1 ... RESOLVED = 4);
also the position along the lifecycle used to state forward progress. -/
def IncidentStatus.value : IncidentStatus → ℕ
  | .REPORTED => 1
  | .EN_ROUTE => 2
  | .ATTENDED => 3
  | .RESOLVED => 4

/-- Embeds the Python enum ShiftType (agent_sim_v2.py lines 45-62):
EARLY = ("early", 7, 16), LATE = ("late", 15, 0), NIGHT = ("night", 22, 7). -/
inductive ShiftType
  | EARLY
  | LATE
  | NIGHT
deriving DecidableEq, Repr

/-- Shift start hour payload of a ShiftType member. -/
def ShiftType.start_hour : ShiftType → ℕ
  | .EARLY => 7
  | .LATE => 15
  | .NIGHT => 22

/-- Shift end hour payload of a ShiftType member. -/
def ShiftType.end_hour : ShiftType → ℕ
  | .EARLY => 16
  | .LATE => 0
  | .NIGHT => 7

/-- Embeds the Shift dataclass (agent_sim_v2.py lines 64-84). -/
structure Shift where
  type : ShiftType
deriving DecidableEq, Repr

/-- Shift.start_time as minutes since midnight: datetime.time(start_hour). -/
def Shift.start_time (s : Shift) : ℕ := s.type.start_hour * 60

/-- Shift.end_time as minutes since midnight: datetime.time(end_hour). -/
def Shift.end_time (s : Shift) : ℕ := s.type.end_hour * 60

/-- Value dynamically stored in the Python Officer.status field: either a plain
string (the dataclass default "available") or an OfficerStatus enum .value,
which in the source is the (code, description) tuple payload. -/
inductive StatusVal
  | s (v : String)
  | pair (code description : String)
deriving DecidableEq, Repr

/-- Embeds datetime.datetime as its calendar fields. Python compares datetimes
lexicographically by (year, month, day, hour, minute, ...). -/
structure PyDateTime where
  year : ℕ
  month : ℕ
  day : ℕ
  hour : ℕ
  minute : ℕ
deriving DecidableEq, Repr

/-- Clock time (datetime.datetime.time()) as minutes since midnight. -/
def PyDateTime.timeOfDay (d : PyDateTime) : ℕ := d.hour * 60 + d.minute

/-- Lexicographic less-or-equal on datetimes, as Python compares them. -/
def dtLe (a b : PyDateTime) : Bool :=
  if a.year ≠ b.year then decide (a.year < b.year)
  else if a.month ≠ b.month then decide (a.month < b.month)
  else if a.day ≠ b.day then decide (a.day < b.day)
  else if a.hour ≠ b.hour then decide (a.hour < b.hour)
  else decide (a.minute ≤ b.minute)

/-- Points (shapely Point / (lon, lat) tuples) as pairs of rationals. -/
abbrev Pt := ℚ × ℚ

/-- Squared Euclidean distance between two points. The source uses shapely's
Euclidean .distance only inside order comparisons (min, sorted keys), and
squaring is strictly monotone on nonnegatives, so every comparison result is
identical. -/
def dist2 (a b : Pt) : ℚ := (a.1 - b.1) * (a.1 - b.1) + (a.2 - b.2) * (a.2 - b.2)

/-- Embeds the Incident dataclass (agent_sim_v2.py lines 183-207). The `id`
field does not appear in the dataclass declaration but is read by
FCR.get_incident_by_id, FCR.gen_isr and the assignment logging, and the spec's
data model lists it ("unique integer, assigned serially by the manager"), so it
is included here. Object-valued fields hold ids. -/
structure Incident where
  id : ℕ
  priority : IncidentType
  location : Pt
  report_time : PyDateTime
  status : IncidentStatus := .REPORTED
  station : Option ℕ := none
  assigned_officer : Option ℕ := none
  travel_time : Option ℚ := none
  resolution_time : Option ℚ := none
  isr : String := "PENDING"
deriving DecidableEq, Repr

/-- Embeds the Officer dataclass (agent_sim_v2.py lines 209-247). `station`
holds the owning station's id; `end_time` is omitted because the only use of
it in the source is `self.end_time.time()`, which by construction in
__post_init__ equals `shift.end_time`. -/
structure Officer where
  id : ℕ
  station : ℕ
  status : StatusVal := .s "available"
  current_location : Pt
  assigned_incident : Option ℕ := none
  shift : Shift
deriving DecidableEq, Repr

/-- Embeds Officer.is_on_duty (agent_sim_v2.py line 246-247):
`shift.start_time <= simulation_time.time() <= end_time.time()` where
`end_time.time()` equals `shift.end_time`; `t` is the simulation clock time in
minutes since midnight. -/
def Officer.is_on_duty (o : Officer) (t : ℕ) : Bool :=
  decide (o.shift.start_time ≤ t ∧ t ≤ o.shift.end_time)

/-- Embeds the PoliceStation class (agent_sim_v2.py lines 251-283). The
officer roster lives in the FCR state (see FCR.station_officers); the shapely
response_area polygon is abstracted to its membership test. -/
structure PoliceStation where
  id : ℕ
  location : Pt
  contains : Pt → Bool

/-- Embeds the FCR dataclass state (agent_sim_v2.py lines 286-337): the
stations, the flat collection of all officers (each station's roster is the
officers whose `station` field names it), and all incidents. -/
structure FCR where
  stations : List PoliceStation
  officers : List Officer
  incidents : List Incident

/-- Roster of a station: PoliceStation.get_officers (agent_sim_v2.py 281-283). -/
def FCR.station_officers (f : FCR) (s : PoliceStation) : List Officer :=
  f.officers.filter (fun o => o.station = s.id)

/-- Embeds FCR.get_available_officers (agent_sim_v2.py lines 350-355): the
station's officers with `assigned_incident is None` and on duty. The source
calls `officer.is_on_duty()` without the `simulation_time` argument the method
requires (a TypeError when executed); the embedding passes the simulation
clock time `t` that the method's signature and the spec's availability
definition require. -/
def FCR.get_available_officers (f : FCR) (s : PoliceStation) (t : ℕ) : List Officer :=
  (f.station_officers s).filter (fun o => o.assigned_incident = none && o.is_on_duty t)

/-- Embeds FCR.find_responsible_station (agent_sim_v2.py lines 343-348):
first station whose response area contains the location, else None. -/
def FCR.find_responsible_station (f : FCR) (p : Pt) : Option PoliceStation :=
  f.stations.find? (fun s => s.contains p)

/-- Zero-padded decimal rendering, as Python's %Y / %m / %d / {:04d} formats. -/
def padZeros (w : ℕ) (n : ℕ) : String :=
  let s := toString n
  String.mk (List.replicate (w - s.length) '0') ++ s

/-- Embeds FCR.gen_isr (agent_sim_v2.py lines 416-422): the returned value is
`f"Inc-{date_str}-{incident.id:04d}"` with `date_str =
report_time.strftime("%Y%m%d")` (the log line uses an "HC-" prefix, but the
function's return value uses "Inc-"). -/
def FCR.gen_isr (inc : Incident) : String :=
  "Inc-" ++ padZeros 4 inc.report_time.year ++ padZeros 2 inc.report_time.month
    ++ padZeros 2 inc.report_time.day ++ "-" ++ padZeros 4 inc.id

/-- Stable insertion of `a` into `l` before the first element `b` with
`le a b`; the building block of a stable sort equal to Python's sorted. -/
def oInsert (le : α → α → Bool) (a : α) : List α → List α
  | [] => [a]
  | b :: l => if le a b then a :: b :: l else b :: oInsert le a l

/-- Stable insertion sort; with a total preorder `le` this computes the same
permutation as Python's stable `sorted`. -/
def sortBy (le : α → α → Bool) : List α → List α
  | [] => []
  | x :: xs => oInsert le x (sortBy le xs)

/-- Sort key comparison of FCR.sort_by_priority_and_time (agent_sim_v2.py line
404-406): lexicographic on `(-incident.priority, incident.report_time)`. The
source negates the raw enum member, which for a plain (non-Int) Enum raises
TypeError when executed; the embedding reads the only coherent numeric
meaning, negation of the member's .value payload. -/
def incLe (a b : Incident) : Bool :=
  if (-a.priority.value : ℤ) ≠ -b.priority.value then decide ((-a.priority.value : ℤ) < -b.priority.value)
  else dtLe a.report_time b.report_time

/-- Embeds FCR.sort_by_priority_and_time (agent_sim_v2.py lines 404-406):
`sorted(incidents, key=lambda incident: (-incident.priority, incident.report_time))`. -/
def FCR.sort_by_priority_and_time (incidents : List Incident) : List Incident :=
  sortBy incLe incidents

/-- Count of incidents whose station field references `s`:
`len([inc for inc in self.incidents if inc.station == station])` in
determine_station_priority (agent_sim_v2.py line 429). Note it counts every
incident ever assigned to the station, whatever its status. -/
def FCR.station_workload (f : FCR) (s : PoliceStation) : ℕ :=
  (f.incidents.filter (fun i => i.station = some s.id)).length

/-- Sort key of determine_station_priority (agent_sim_v2.py lines 426-430):
`(distance, -available_officers, workload)`. -/
def FCR.stationKey (f : FCR) (inc : Incident) (t : ℕ) (s : PoliceStation) : ℚ × ℤ × ℕ :=
  (dist2 s.location inc.location, -((f.get_available_officers s t).length : ℤ),
    f.station_workload s)

/-- Lexicographic less-or-equal on (ℚ, ℤ, ℕ) key triples. -/
def lexQZN (p q : ℚ × ℤ × ℕ) : Bool :=
  if p.1 ≠ q.1 then decide (p.1 < q.1)
  else if p.2.1 ≠ q.2.1 then decide (p.2.1 < q.2.1)
  else decide (p.2.2 ≤ q.2.2)

/-- Station comparison used to sort candidate stations. -/
def FCR.stationLe (f : FCR) (inc : Incident) (t : ℕ) (s1 s2 : PoliceStation) : Bool :=
  lexQZN (f.stationKey inc t s1) (f.stationKey inc t s2)

/-- Embeds FCR.determine_station_priority (agent_sim_v2.py lines 424-433):
the stations whose response area contains the incident's location, sorted by
(distance, -available officers, workload). -/
def FCR.determine_station_priority (f : FCR) (inc : Incident) (t : ℕ) : List PoliceStation :=
  sortBy (f.stationLe inc t) (f.stations.filter (fun s => s.contains inc.location))

/-- First minimal element: Python's `min(best :: rest, key)` keeps the current
best on ties and replaces it only on a strictly smaller key, so it returns the
first element attaining the minimum. -/
def pyMinBy (key : α → ℚ) (best : α) : List α → α
  | [] => best
  | x :: xs => if key x < key best then pyMinBy key x xs else pyMinBy key best xs

/-- Update the incident with the given id (Python mutates the object in place;
the embedding rewrites the list entry with that id). -/
def FCR.updIncident (f : FCR) (inc_id : ℕ) (g : Incident → Incident) : FCR :=
  { f with incidents := f.incidents.map (fun i => if i.id = inc_id then g i else i) }

/-- Update the officer with the given id. -/
def FCR.updOfficer (f : FCR) (o_id : ℕ) (g : Officer → Officer) : FCR :=
  { f with officers := f.officers.map (fun o => if o.id = o_id then g o else o) }

/-- State change performed on a successful assignment (agent_sim_v2.py lines
443-446): `closest_officer.assigned_incident = incident;
incident.status = EN_ROUTE; incident.station = station`. Nothing else is
written; in particular neither `incident.assigned_officer` nor the officer's
`status` is touched. -/
def FCR.bindOfficer (f : FCR) (inc : Incident) (s : PoliceStation) (o : Officer) : FCR :=
  (f.updIncident inc.id (fun i => { i with status := .EN_ROUTE, station := some s.id })).updOfficer
    o.id (fun x => { x with assigned_incident := some inc.id })

/-- Embeds FCR.assign_officer_to_incident (agent_sim_v2.py lines 435-446):
pick the available officer closest to the incident, bind it, return True;
return False leaving the state untouched when no officer is available. -/
def FCR.assign_officer_to_incident (f : FCR) (inc : Incident) (s : PoliceStation) (t : ℕ) :
    Bool × FCR :=
  match f.get_available_officers s t with
  | [] => (false, f)
  | o :: rest =>
      (true, f.bindOfficer inc s (pyMinBy (fun x => dist2 x.current_location inc.location) o rest))

/-- Iteration of FCR.assign_incident (agent_sim_v2.py lines 448-452) over the
priority-ordered station list: first successful assignment wins. -/
def FCR.tryStations (f : FCR) (inc : Incident) (t : ℕ) : List PoliceStation → FCR
  | [] => f
  | s :: rest =>
      match f.assign_officer_to_incident inc s t with
      | (true, f') => f'
      | (false, _) => f.tryStations inc t rest

/-- Embeds the effective FCR.assign_incident (agent_sim_v2.py lines 448-452;
it shadows the earlier draft at lines 361-378, since in a Python class body
the later definition of the same name wins). Note there is no guard on the
incident's current status or existing binding. -/
def FCR.assign_incident (f : FCR) (inc : Incident) (t : ℕ) : FCR :=
  f.tryStations inc t (f.determine_station_priority inc t)

/-- Embeds FCR.add_incident (agent_sim_v2.py lines 339-341): append the
incident and immediately try to assign it. -/
def FCR.add_incident (f : FCR) (inc : Incident) (t : ℕ) : FCR :=
  { f with incidents := f.incidents ++ [inc] }.assign_incident inc t

/-- First half of the per-incident part of step 5 of main_simulation_loop
(agent_sim_v2.py lines 543-545): an EN_ROUTE incident whose travel_time has
reached 0 becomes ATTENDED with the countdown cleared. When a compared
countdown is None the source raises TypeError (the decrement at line 542 that
would maintain travel_time and the draw at line 546 that would set
resolution_time are both commented out); the embedding leaves such an
incident unchanged, so theorems about the tick speak only about incidents
whose countdowns are present. -/
def tickArrive (i : Incident) : Incident :=
  match i.status, i.travel_time with
  | .EN_ROUTE, some tt =>
      if tt ≤ 0 then { i with status := .ATTENDED, travel_time := none } else i
  | _, _ => i

/-- Second half of the per-incident tick (agent_sim_v2.py lines 548-551):
decrement the resolution countdown of an ATTENDED incident and resolve it
when the countdown reaches 0; the boolean reports resolution. -/
def tickResolve (dt : ℚ) (i : Incident) : Incident × Bool :=
  match i.status, i.resolution_time with
  | .ATTENDED, some rt =>
      if rt - dt ≤ 0 then
        ({ i with status := .RESOLVED, resolution_time := some (rt - dt) }, true)
      else ({ i with resolution_time := some (rt - dt) }, false)
  | _, _ => (i, false)

/-- One incident's pass through step 5 of main_simulation_loop (agent_sim_v2.py
lines 541-551): the arrival check followed by the resolution countdown; note
an incident whose both countdowns have elapsed passes from EN_ROUTE through
ATTENDED to RESOLVED within the single tick. -/
def tickIncident (dt : ℚ) (i : Incident) : Incident × Bool :=
  tickResolve dt (tickArrive i)

/-- Station-major traversal of all officers, the order of the generator
`officer for station in fcr.stations for officer in station.officers`
(agent_sim_v2.py line 552). -/
def FCR.stationMajorOfficers (f : FCR) : List Officer :=
  f.stations.flatMap (fun s => f.station_officers s)

/-- Officer release on resolution (agent_sim_v2.py lines 552-554): the first
officer (in station-major order) whose assigned_incident references the
incident gets status AVAILABLE_AT_STATION.value and its binding cleared. The
source's `next(...)` raises StopIteration when no officer is bound; the
embedding leaves the state unchanged in that case. -/
def FCR.releaseOfficer (f : FCR) (inc_id : ℕ) : FCR :=
  match (f.stationMajorOfficers).find? (fun o => o.assigned_incident = some inc_id) with
  | some o =>
      f.updOfficer o.id
        (fun x => { x with status := .pair "03" "Available at station", assigned_incident := none })
  | none => f

/-- One incident's share of a simulation tick (agent_sim_v2.py lines 541-555):
advance the incident through the countdowns and, if it resolves, release its
officer. The source iterates `incidents_attended` while removing from it, so
the set of incidents processed in a given tick varies; modelling the tick as
one such per-incident step (applied to any chosen incident id) covers every
iteration order the source can produce. -/
def FCR.tickIncidentStep (f : FCR) (inc_id : ℕ) (dt : ℚ) : FCR :=
  match f.incidents.find? (fun i => i.id = inc_id) with
  | none => f
  | some i =>
      if (tickIncident dt i).2 then
        (f.updIncident inc_id (fun _ => (tickIncident dt i).1)).releaseOfficer inc_id
      else f.updIncident inc_id (fun _ => (tickIncident dt i).1)

/-- Backlog assignment inlined in step 3 of main_simulation_loop
(agent_sim_v2.py lines 520-528): at the responsible station, bind the first
available officer (not the closest), set its status to
ATTENDING_INCIDENT.value, and mark the incident EN_ROUTE (the loop does not
set incident.station). -/
def FCR.backlogAssign (f : FCR) (inc : Incident) (t : ℕ) : FCR :=
  match f.find_responsible_station inc.location with
  | none => f
  | some s =>
      match f.get_available_officers s t with
      | [] => f
      | o :: _ =>
          (f.updOfficer o.id (fun x =>
            { x with status := .pair "05" "Attending incident",
                     assigned_incident := some inc.id })).updIncident inc.id
            (fun i => { i with status := .EN_ROUTE })

/-- One step of the system: an FCR operation (assignment attempt on an
existing incident, or arrival of a freshly created incident) or one
incident's share of a simulation tick (including the loop's inline backlog
assignment). Fresh incidents carry the dataclass defaults relevant to the
claims: status REPORTED and no station / officer binding. -/
inductive Step : FCR → FCR → Prop
  | assign (f : FCR) (inc : Incident) (t : ℕ) (h : inc ∈ f.incidents) :
      Step f (f.assign_incident inc t)
  | add (f : FCR) (inc : Incident) (t : ℕ) (hst : inc.status = .REPORTED)
      (hof : inc.assigned_officer = none) (hsta : inc.station = none) :
      Step f (f.add_incident inc t)
  | backlog (f : FCR) (inc : Incident) (t : ℕ) (h : inc ∈ f.incidents) :
      Step f (f.backlogAssign inc t)
  | tick (f : FCR) (inc_id : ℕ) (dt : ℚ) :
      Step f (f.tickIncidentStep inc_id dt)

/-- Reachability by any number of system steps. -/
def Reachable : FCR → FCR → Prop := Relation.ReflTransGen Step

/-- Row of the precomputed travel-time table travel_times_distances.csv read
by TravelTimeCalculator (src/travel_time_calc.py): a pair of sampled-point
indices with the route's distance and duration. -/
structure TTRow where
  point1_index : ℕ
  point2_index : ℕ
  distance_metres : ℚ
  duration_seconds : ℚ
deriving DecidableEq, Repr

/-- Index of the sampled point nearest to `p` (travel_time_calc.py lines
42-48): numpy computes exactly the squared distances and argmin returns the
first index attaining the minimum; an empty table is a numpy error, embedded
as index 0. -/
def nearestIndex (points : List Pt) (p : Pt) : ℕ :=
  match points with
  | [] => 0
  | q :: qs =>
      let rec go : ℕ → ℕ → ℚ → List Pt → ℕ
        | _, bestIdx, _, [] => bestIdx
        | idx, bestIdx, bestVal, r :: rs =>
            if dist2 r p < bestVal then go (idx + 1) idx (dist2 r p) rs
            else go (idx + 1) bestIdx bestVal rs
      go 1 0 (dist2 q p) qs

/-- Table lookup of travel_time_calc.py lines 50-71: first the rows with
(point1_index, point2_index) = (i, j), then with the indices swapped; pandas'
`.values[0]` takes the first matching row; no match in either orientation
yields (None, None), embedded as `none`. -/
def lookupPair (table : List TTRow) (i j : ℕ) : Option (ℚ × ℚ) :=
  match table.find? (fun r => r.point1_index = i && r.point2_index = j) with
  | some r => some (r.distance_metres, r.duration_seconds)
  | none =>
      match table.find? (fun r => r.point1_index = j && r.point2_index = i) with
      | some r => some (r.distance_metres, r.duration_seconds)
      | none => none

/-- Embeds TravelTimeCalculator.get_travel_time_and_distance
(travel_time_calc.py lines 18-71). Both endpoints pass through the same CRS
projection in the source; the embedding works directly with projected points,
which leaves the nearest-index computation and hence the result unchanged. -/
def get_travel_time_and_distance (points : List Pt) (table : List TTRow)
    (origin dest : Pt) : Option (ℚ × ℚ) :=
  lookupPair table (nearestIndex points origin) (nearestIndex points dest)

/-- Two table rows cover the same unordered pair of sampled-point indices. -/
def samePair (r1 r2 : TTRow) : Prop :=
  (r1.point1_index = r2.point1_index ∧ r1.point2_index = r2.point2_index) ∨
  (r1.point1_index = r2.point2_index ∧ r1.point2_index = r2.point1_index)

instance samePairDec (r1 r2 : TTRow) : Decidable (samePair r1 r2) := by
  unfold samePair; infer_instance

/-- Modelled from the spec: the station ordering the claim describes, with the
third key being the count of open (unresolved) incidents assigned to the
station rather than the source's count of all such incidents. Used only to
compare the claimed ordering with the source's. -/
def spec_openWorkload (f : FCR) (s : PoliceStation) : ℕ :=
  (f.incidents.filter (fun i => i.station = some s.id && i.status ≠ .RESOLVED)).length

/-- Modelled from the spec: lexicographic station comparison by (ascending
distance, descending available-officer count, ascending open-incident
workload). -/
def spec_stationLe (f : FCR) (inc : Incident) (t : ℕ) (s1 s2 : PoliceStation) : Bool :=
  lexQZN
    (dist2 s1.location inc.location, -((f.get_available_officers s1 t).length : ℤ),
      spec_openWorkload f s1)
    (dist2 s2.location inc.location, -((f.get_available_officers s2 t).length : ℤ),
      spec_openWorkload f s2)

/-- Adjacent-pairs sortedness check for a boolean comparison. -/
def sortedBy (le : α → α → Bool) : List α → Bool
  | [] => true
  | [_] => true
  | a :: b :: l => le a b && sortedBy le (b :: l)

/-- Concrete station used in the executable scenarios: responsible for every
point. -/
def exStation : PoliceStation :=
  { id := 10
    location := (0, 0)
    contains := fun _ => true }

/-- Concrete on-duty EARLY-shift officer at the station's location. -/
def exOfficer1 : Officer :=
  { id := 1
    station := 10
    current_location := (0, 0)
    shift := ⟨.EARLY⟩ }

/-- Concrete on-duty EARLY-shift officer further from the origin. -/
def exOfficer2 : Officer :=
  { id := 2
    station := 10
    current_location := (5, 0)
    shift := ⟨.EARLY⟩ }

/-- Concrete incident at the origin, reported 2024-01-01 09:00, with an
already-elapsed travel countdown and a 1000-second resolution countdown. -/
def exIncidentA : Incident :=
  { id := 1
    priority := .IMMEDIATE
    location := (0, 0)
    report_time := ⟨2024, 1, 1, 9, 0⟩
    travel_time := some 0
    resolution_time := some 1000 }

/-- Initial concrete state: one station, two free on-duty officers, one
reported incident. -/
def exA0 : FCR :=
  { stations := [exStation]
    officers := [exOfficer1, exOfficer2]
    incidents := [exIncidentA] }

/-- State after the first assignment attempt at simulated clock 09:00. -/
def exA1 : FCR := exA0.assign_incident exIncidentA 540

/-- State after one simulation tick of 300 seconds on incident 1. -/
def exA2 : FCR := exA1.tickIncidentStep 1 300

/-- The incident value stored in exA1 (status EN_ROUTE, bound to officer 1 on
the officer side only). -/
def exIncidentA1 : Incident :=
  { exIncidentA with
    status := .EN_ROUTE
    station := some 10 }

/-- The incident value stored in exA2 (status ATTENDED). -/
def exIncidentA2 : Incident :=
  { exIncidentA with
    status := .ATTENDED
    station := some 10
    travel_time := none
    resolution_time := some 700 }

/-- State after a renewed assignment attempt on the ATTENDED incident. -/
def exA3 : FCR := exA2.assign_incident exIncidentA2 540

/-- Officer 1 as it stands in exA1: bound to incident 1. -/
def exOfficer1b : Officer :=
  { exOfficer1 with assigned_incident := some 1 }

/-- PROMPT incident reported at t1 = 09:00. -/
def exSortI1 : Incident :=
  { id := 1
    priority := .PROMPT
    location := (0, 0)
    report_time := ⟨2024, 1, 1, 9, 0⟩ }

/-- IMMEDIATE incident reported at t2 = 10:00. -/
def exSortI2 : Incident :=
  { id := 2
    priority := .IMMEDIATE
    location := (0, 0)
    report_time := ⟨2024, 1, 1, 10, 0⟩ }

/-- IMMEDIATE incident reported at t3 = 11:00. -/
def exSortI3 : Incident :=
  { id := 3
    priority := .IMMEDIATE
    location := (0, 0)
    report_time := ⟨2024, 1, 1, 11, 0⟩ }

/-- Concrete NIGHT-shift (22:00-07:00) officer. -/
def exNightOfficer : Officer :=
  { id := 7
    station := 10
    current_location := (0, 0)
    shift := ⟨.NIGHT⟩ }

/-- Station 1 of the ranking scenario, at the origin, containing every point. -/
def exStB1 : PoliceStation :=
  { id := 1
    location := (0, 0)
    contains := fun _ => true }

/-- Station 2 of the ranking scenario, also at the origin. -/
def exStB2 : PoliceStation :=
  { id := 2
    location := (0, 0)
    contains := fun _ => true }

/-- A RESOLVED incident assigned to station 1. -/
def exIncB1 : Incident :=
  { id := 11
    priority := .PROMPT
    location := (0, 0)
    report_time := ⟨2024, 1, 1, 8, 0⟩
    status := .RESOLVED
    station := some 1 }

/-- A second RESOLVED incident assigned to station 1. -/
def exIncB2 : Incident :=
  { id := 12
    priority := .PROMPT
    location := (0, 0)
    report_time := ⟨2024, 1, 1, 8, 30⟩
    status := .RESOLVED
    station := some 1 }

/-- An open (EN_ROUTE) incident assigned to station 2. -/
def exIncB3 : Incident :=
  { id := 13
    priority := .PROMPT
    location := (0, 0)
    report_time := ⟨2024, 1, 1, 8, 45⟩
    status := .EN_ROUTE
    station := some 2 }

/-- The incident to be ranked in the station-ordering scenario. -/
def exIncB0 : Incident :=
  { id := 14
    priority := .IMMEDIATE
    location := (0, 0)
    report_time := ⟨2024, 1, 1, 9, 0⟩ }

/-- Ranking scenario: both stations equidistant with no officers; station 1
carries two RESOLVED incidents (no open ones), station 2 carries one open
incident. -/
def exB : FCR :=
  { stations := [exStB1, exStB2]
    officers := []
    incidents := [exIncB1, exIncB2, exIncB3, exIncB0] }

/-- Station whose response area contains no point. -/
def exStNone : PoliceStation :=
  { id := 3
    location := (0, 0)
    contains := fun _ => false }

/-- Incident that no station is responsible for. -/
def exIncD : Incident :=
  { id := 21
    priority := .IMMEDIATE
    location := (0, 0)
    report_time := ⟨2024, 1, 1, 9, 0⟩ }

/-- State with a single station that covers nothing. -/
def exD : FCR :=
  { stations := [exStNone]
    officers := []
    incidents := [exIncD] }

/-- Incident for the ISR scenario. -/
def exIncE1 : Incident :=
  { id := 42
    priority := .IMMEDIATE
    location := (0, 0)
    report_time := ⟨2024, 3, 5, 9, 30⟩ }

/-- Same serial id and report date as exIncE1 but a different clock time,
priority, status and location. -/
def exIncE2 : Incident :=
  { id := 42
    priority := .NO_RESPONSE
    location := (7, 8)
    report_time := ⟨2024, 3, 5, 23, 59⟩
    status := .RESOLVED }

/-- Two sampled road points for the travel-time scenario. -/
def exTTPoints : List Pt := [(0, 0), (10, 0)]

/-- A one-row travel-time table covering the pair (0, 1). -/
def exTTTable : List TTRow := [⟨0, 1, 100, 60⟩]

theorem oInsert_perm (le : α → α → Bool) (a : α) (l : List α) :
    List.Perm (oInsert le a l) (a :: l) := by
  induction l with
  | nil => exact List.Perm.refl _
  | cons b l ih =>
      unfold oInsert
      by_cases h : le a b = true
      · rw [if_pos h]
      · rw [if_neg h]
        exact (ih.cons b).trans (List.Perm.swap a b l)

theorem sortBy_perm (le : α → α → Bool) (l : List α) : List.Perm (sortBy le l) l := by
  induction l with
  | nil => exact List.Perm.refl _
  | cons x xs ih => exact (oInsert_perm le x (sortBy le xs)).trans (ih.cons x)

theorem mem_oInsert {le : α → α → Bool} {a x : α} {l : List α}
    (h : x ∈ oInsert le a l) : x = a ∨ x ∈ l := by
  have h' := (oInsert_perm le a l).mem_iff.mp h
  simpa using h'

theorem oInsert_pairwise {le : α → α → Bool}
    (htot : ∀ a b, le a b = true ∨ le b a = true)
    (htrans : ∀ a b c, le a b = true → le b c = true → le a c = true)
    {a : α} {l : List α} (hl : List.Pairwise (fun x y => le x y = true) l) :
    List.Pairwise (fun x y => le x y = true) (oInsert le a l) := by
  induction l with
  | nil => simp [oInsert]
  | cons b l ih =>
      obtain ⟨hb, hl'⟩ := List.pairwise_cons.mp hl
      unfold oInsert
      by_cases h : le a b = true
      · rw [if_pos h]
        refine List.Pairwise.cons ?_ hl
        intro y hy
        rcases List.mem_cons.mp hy with rfl | hy
        · exact h
        · exact htrans a b y h (hb y hy)
      · rw [if_neg h]
        refine List.Pairwise.cons ?_ (ih hl')
        intro y hy
        rcases mem_oInsert hy with rfl | hy
        · rcases htot y b with h' | h'
          · exact absurd h' h
          · exact h'
        · exact hb y hy

theorem sortBy_pairwise (le : α → α → Bool)
    (htot : ∀ a b, le a b = true ∨ le b a = true)
    (htrans : ∀ a b c, le a b = true → le b c = true → le a c = true)
    (l : List α) : List.Pairwise (fun x y => le x y = true) (sortBy le l) := by
  induction l with
  | nil => simp [sortBy]
  | cons x xs ih => exact oInsert_pairwise htot htrans ih

theorem lexQZN_eq_true (p q : ℚ × ℤ × ℕ) :
    lexQZN p q = true ↔
      p.1 < q.1 ∨ (p.1 = q.1 ∧ (p.2.1 < q.2.1 ∨ (p.2.1 = q.2.1 ∧ p.2.2 ≤ q.2.2))) := by
  unfold lexQZN
  by_cases h1 : p.1 = q.1
  · by_cases h2 : p.2.1 = q.2.1
    · simp [h1, h2]
    · simp [h1, h2]
  · simp [h1]

theorem lexQZN_total (p q : ℚ × ℤ × ℕ) : lexQZN p q = true ∨ lexQZN q p = true := by
  rcases lt_trichotomy p.1 q.1 with h | h | h
  · exact Or.inl ((lexQZN_eq_true p q).mpr (Or.inl h))
  · rcases lt_trichotomy p.2.1 q.2.1 with h2 | h2 | h2
    · exact Or.inl ((lexQZN_eq_true p q).mpr (Or.inr ⟨h, Or.inl h2⟩))
    · rcases le_total p.2.2 q.2.2 with h3 | h3
      · exact Or.inl ((lexQZN_eq_true p q).mpr (Or.inr ⟨h, Or.inr ⟨h2, h3⟩⟩))
      · exact Or.inr ((lexQZN_eq_true q p).mpr (Or.inr ⟨h.symm, Or.inr ⟨h2.symm, h3⟩⟩))
    · exact Or.inr ((lexQZN_eq_true q p).mpr (Or.inr ⟨h.symm, Or.inl h2⟩))
  · exact Or.inr ((lexQZN_eq_true q p).mpr (Or.inl h))

theorem lexQZN_trans (p q r : ℚ × ℤ × ℕ) (h1 : lexQZN p q = true)
    (h2 : lexQZN q r = true) : lexQZN p r = true := by
  rw [lexQZN_eq_true] at h1 h2 ⊢
  rcases h1 with h1 | ⟨e1, g1⟩
  · rcases h2 with h2 | ⟨e2, _⟩
    · exact Or.inl (h1.trans h2)
    · exact Or.inl (h1.trans_eq e2)
  · rcases h2 with h2 | ⟨e2, g2⟩
    · exact Or.inl (e1.trans_lt h2)
    · refine Or.inr ⟨e1.trans e2, ?_⟩
      rcases g1 with g1 | ⟨f1, k1⟩
      · rcases g2 with g2 | ⟨f2, _⟩
        · exact Or.inl (g1.trans g2)
        · exact Or.inl (g1.trans_eq f2)
      · rcases g2 with g2 | ⟨f2, k2⟩
        · exact Or.inl (f1.trans_lt g2)
        · exact Or.inr ⟨f1.trans f2, k1.trans k2⟩

theorem pyMinBy_mem (key : α → ℚ) (best : α) (l : List α) :
    pyMinBy key best l ∈ best :: l := by
  induction l generalizing best with
  | nil => simp [pyMinBy]
  | cons x xs ih =>
      unfold pyMinBy
      by_cases h : key x < key best
      · rw [if_pos h]
        rcases List.mem_cons.mp (ih x) with h' | h'
        · simp [h']
        · simp [h']
      · rw [if_neg h]
        rcases List.mem_cons.mp (ih best) with h' | h'
        · simp [h']
        · simp [h']

theorem pyMinBy_le (key : α → ℚ) (best : α) (l : List α) :
    ∀ x ∈ best :: l, key (pyMinBy key best l) ≤ key x := by
  induction l generalizing best with
  | nil => simp [pyMinBy]
  | cons y ys ih =>
      intro x hx
      unfold pyMinBy
      by_cases h : key y < key best
      · rw [if_pos h]
        rcases List.mem_cons.mp hx with rfl | hx'
        · exact le_trans (ih y y (List.mem_cons_self y ys)) h.le
        · exact ih y x hx' 
      · rw [if_neg h]
        rcases List.mem_cons.mp hx with rfl | hx
        · exact ih x x (List.mem_cons_self x ys)
        · rcases List.mem_cons.mp hx with rfl | hx
          · exact le_trans (ih best best (List.mem_cons_self best ys)) (not_lt.mp h)
          · exact ih best x (List.mem_cons_of_mem best hx)

theorem pyMinBy_first (key : α → ℚ) (best : α) (l : List α) :
    ∃ pre post, best :: l = pre ++ pyMinBy key best l :: post ∧
      ∀ p ∈ pre, key (pyMinBy key best l) < key p := by
  induction l generalizing best with
  | nil => exact ⟨[], [], rfl, by simp⟩
  | cons y ys ih =>
      unfold pyMinBy
      by_cases h : key y < key best
      · rw [if_pos h]
        obtain ⟨pre, post, hsplit, hlt⟩ := ih y
        refine ⟨best :: pre, post, ?_, ?_⟩
        · rw [List.cons_append, ← hsplit]
        · intro p hp
          rcases List.mem_cons.mp hp with rfl | hp
          · exact lt_of_le_of_lt (pyMinBy_le key y ys y (List.mem_cons_self y ys)) h
          · exact hlt p hp
      · rw [if_neg h]
        obtain ⟨pre, post, hsplit, hlt⟩ := ih best
        rcases pre with _ | ⟨p0, pre'⟩
        · simp only [List.nil_append, List.cons.injEq] at hsplit
          obtain ⟨h1, h2⟩ := hsplit
          exact ⟨[], y :: ys, by rw [List.nil_append, ← h1], by simp⟩
        · rw [List.cons_append, List.cons.injEq] at hsplit
          obtain ⟨h1, h2⟩ := hsplit
          have hmb : key (pyMinBy key best ys) < key best := by
            have hh := hlt p0 (List.mem_cons_self p0 pre')
            rwa [← h1] at hh
          refine ⟨best :: y :: pre', post, ?_, ?_⟩
          · rw [List.cons_append, List.cons_append, ← h2]
          · intro p hp
            rcases List.mem_cons.mp hp with rfl | hp
            · exact hmb
            · rcases List.mem_cons.mp hp with rfl | hp
              · exact lt_of_lt_of_le hmb (not_lt.mp h)
              · exact hlt p (List.mem_cons_of_mem p0 hp)

theorem updIncident_officers (f : FCR) (n : ℕ) (g : Incident → Incident) :
    (f.updIncident n g).officers = f.officers := rfl

theorem updIncident_incidents (f : FCR) (n : ℕ) (g : Incident → Incident) :
    (f.updIncident n g).incidents = f.incidents.map (fun i => if i.id = n then g i else i) := rfl

theorem updOfficer_incidents (f : FCR) (n : ℕ) (g : Officer → Officer) :
    (f.updOfficer n g).incidents = f.incidents := rfl

theorem updOfficer_officers (f : FCR) (n : ℕ) (g : Officer → Officer) :
    (f.updOfficer n g).officers = f.officers.map (fun o => if o.id = n then g o else o) := rfl

theorem bindOfficer_incidents (f : FCR) (inc : Incident) (s : PoliceStation) (o : Officer) :
    (f.bindOfficer inc s o).incidents =
      f.incidents.map (fun i =>
        if i.id = inc.id then { i with status := .EN_ROUTE, station := some s.id } else i) := rfl

theorem bindOfficer_officers (f : FCR) (inc : Incident) (s : PoliceStation) (o : Officer) :
    (f.bindOfficer inc s o).officers =
      f.officers.map (fun x =>
        if x.id = o.id then { x with assigned_incident := some inc.id } else x) := rfl

theorem tryStations_no_officers {f : FCR} {inc : Incident} {t : ℕ} :
    ∀ L : List PoliceStation, (∀ s ∈ L, f.get_available_officers s t = []) →
      f.tryStations inc t L = f := by
  intro L
  induction L with
  | nil => intro _; rfl
  | cons s rest ih =>
      intro h
      have hs := h s (List.mem_cons_self s rest)
      have hrest : ∀ x ∈ rest, f.get_available_officers x t = [] :=
        fun x hx => h x (List.mem_cons_of_mem s hx)
      simp only [FCR.tryStations, FCR.assign_officer_to_incident, hs]
      exact ih hrest

theorem tryStations_success {f : FCR} {inc : Incident} {t : ℕ} :
    ∀ (pre : List PoliceStation) (s : PoliceStation) (post : List PoliceStation)
      (o : Officer) (rest : List Officer),
      (∀ p ∈ pre, f.get_available_officers p t = []) →
      f.get_available_officers s t = o :: rest →
      f.tryStations inc t (pre ++ s :: post) =
        f.bindOfficer inc s (pyMinBy (fun x => dist2 x.current_location inc.location) o rest) := by
  intro pre
  induction pre with
  | nil =>
      intro s post o rest _ hs
      simp only [List.nil_append, FCR.tryStations, FCR.assign_officer_to_incident, hs]
  | cons p pre' ih =>
      intro s post o rest hpre hs
      have hp := hpre p (List.mem_cons_self p pre')
      have hpre' : ∀ x ∈ pre', f.get_available_officers x t = [] :=
        fun x hx => hpre x (List.mem_cons_of_mem p hx)
      simp only [List.cons_append, FCR.tryStations, FCR.assign_officer_to_incident, hp]
      exact ih s post o rest hpre' hs

theorem tryStations_cases (f : FCR) (inc : Incident) (t : ℕ) :
    ∀ L : List PoliceStation,
      f.tryStations inc t L = f ∨
      ∃ (s : PoliceStation) (o : Officer) (rest : List Officer), s ∈ L ∧
        f.get_available_officers s t = o :: rest ∧
        f.tryStations inc t L =
          f.bindOfficer inc s (pyMinBy (fun x => dist2 x.current_location inc.location) o rest) := by
  intro L
  induction L with
  | nil => exact Or.inl rfl
  | cons s rest ih =>
      cases havail : f.get_available_officers s t with
      | nil =>
          rcases ih with h | ⟨s', o, orest, hmem, ho, heq⟩
          · left
            simp only [FCR.tryStations, FCR.assign_officer_to_incident, havail]
            exact h
          · right
            refine ⟨s', o, orest, List.mem_cons_of_mem s hmem, ho, ?_⟩
            simp only [FCR.tryStations, FCR.assign_officer_to_incident, havail]
            exact heq
      | cons o orest =>
          right
          refine ⟨s, o, orest, List.mem_cons_self s rest, havail, ?_⟩
          simp only [FCR.tryStations, FCR.assign_officer_to_incident, havail]

theorem assign_incident_cases (f : FCR) (inc : Incident) (t : ℕ) :
    f.assign_incident inc t = f ∨
    ∃ (s : PoliceStation) (o : Officer) (rest : List Officer),
      s ∈ f.determine_station_priority inc t ∧
      f.get_available_officers s t = o :: rest ∧
      f.assign_incident inc t =
        f.bindOfficer inc s (pyMinBy (fun x => dist2 x.current_location inc.location) o rest) :=
  tryStations_cases f inc t (f.determine_station_priority inc t)

theorem tickArrive_assigned_officer (i : Incident) :
    (tickArrive i).assigned_officer = i.assigned_officer := by
  unfold tickArrive
  split
  · split <;> rfl
  · rfl

theorem tickResolve_assigned_officer (dt : ℚ) (i : Incident) :
    (tickResolve dt i).1.assigned_officer = i.assigned_officer := by
  unfold tickResolve
  split
  · split <;> rfl
  · rfl

theorem tickIncident_assigned_officer (dt : ℚ) (i : Incident) :
    (tickIncident dt i).1.assigned_officer = i.assigned_officer := by
  unfold tickIncident
  rw [tickResolve_assigned_officer, tickArrive_assigned_officer]

theorem tickArrive_mono (i : Incident) : i.status.value ≤ (tickArrive i).status.value := by
  unfold tickArrive
  split
  · split
    · simp_all [IncidentStatus.value]
    · exact le_refl _
  · exact le_refl _

theorem tickResolve_mono (dt : ℚ) (i : Incident) :
    i.status.value ≤ (tickResolve dt i).1.status.value := by
  unfold tickResolve
  split
  · split
    · simp_all [IncidentStatus.value]
    · exact le_refl _
  · exact le_refl _

theorem tickIncident_mono (dt : ℚ) (i : Incident) :
    i.status.value ≤ (tickIncident dt i).1.status.value :=
  le_trans (tickArrive_mono i) (tickResolve_mono dt (tickArrive i))

theorem releaseOfficer_incidents (f : FCR) (n : ℕ) :
    (f.releaseOfficer n).incidents = f.incidents := by
  unfold FCR.releaseOfficer
  split <;> rfl

/-- Incidents never point at an officer: the incident-side half of the claimed
bidirectional binding. -/
def NoIncidentOfficerRef (f : FCR) : Prop :=
  ∀ i ∈ f.incidents, i.assigned_officer = none

theorem noiof_bindOfficer {f : FCR} {inc : Incident} {s : PoliceStation} {o : Officer}
    (h : NoIncidentOfficerRef f) : NoIncidentOfficerRef (f.bindOfficer inc s o) := by
  intro i' hi'
  rw [bindOfficer_incidents] at hi'
  obtain ⟨i, hi, hmap⟩ := List.mem_map.mp hi'
  by_cases hid : i.id = inc.id
  · rw [if_pos hid] at hmap
    rw [← hmap]
    exact h i hi
  · rw [if_neg hid] at hmap
    rw [← hmap]
    exact h i hi

theorem noiof_assign_incident {f : FCR} {inc : Incident} {t : ℕ}
    (h : NoIncidentOfficerRef f) : NoIncidentOfficerRef (f.assign_incident inc t) := by
  rcases assign_incident_cases f inc t with heq | ⟨s, o, rest, _, _, heq⟩
  · rw [heq]; exact h
  · rw [heq]; exact noiof_bindOfficer h

theorem noiof_backlogAssign {f : FCR} {inc : Incident} {t : ℕ}
    (h : NoIncidentOfficerRef f) : NoIncidentOfficerRef (f.backlogAssign inc t) := by
  unfold FCR.backlogAssign
  split
  · exact h
  · split
    · exact h
    · intro i' hi'
      rw [updIncident_incidents, updOfficer_incidents] at hi'
      obtain ⟨i, hi, hmap⟩ := List.mem_map.mp hi'
      by_cases hid : i.id = inc.id
      · rw [if_pos hid] at hmap
        rw [← hmap]
        exact h i hi
      · rw [if_neg hid] at hmap
        rw [← hmap]
        exact h i hi

theorem noiof_tickIncidentStep {f : FCR} {n : ℕ} {dt : ℚ}
    (h : NoIncidentOfficerRef f) : NoIncidentOfficerRef (f.tickIncidentStep n dt) := by
  unfold FCR.tickIncidentStep
  split
  · exact h
  · rename_i i0 hfind
    have hi0 : i0 ∈ f.incidents := List.mem_of_find?_eq_some hfind
    have hkey : (tickIncident dt i0).1.assigned_officer = none := by
      rw [tickIncident_assigned_officer]
      exact h i0 hi0
    have hbase : NoIncidentOfficerRef (f.updIncident n fun _ => (tickIncident dt i0).1) := by
      intro i' hi'
      rw [updIncident_incidents] at hi'
      obtain ⟨i, hi, hmap⟩ := List.mem_map.mp hi'
      by_cases hid : i.id = n
      · rw [if_pos hid] at hmap
        rw [← hmap]
        exact hkey
      · rw [if_neg hid] at hmap
        rw [← hmap]
        exact h i hi
    split
    · intro i' hi'
      rw [releaseOfficer_incidents] at hi'
      exact hbase i' hi'
    · exact hbase

theorem noiof_add_incident {f : FCR} {inc : Incident} {t : ℕ}
    (h : NoIncidentOfficerRef f) (hof : inc.assigned_officer = none) :
    NoIncidentOfficerRef (f.add_incident inc t) := by
  unfold FCR.add_incident
  refine noiof_assign_incident ?_
  intro i hi
  rcases List.mem_append.mp hi with hi | hi
  · exact h i hi
  · rw [List.mem_singleton.mp hi]
    exact hof

theorem step_preserves_noiof {f f' : FCR} (hs : Step f f')
    (h : NoIncidentOfficerRef f) : NoIncidentOfficerRef f' := by
  cases hs with
  | assign inc t _ => exact noiof_assign_incident h
  | add inc t _ hof _ => exact noiof_add_incident h hof
  | backlog inc t _ => exact noiof_backlogAssign h
  | tick n dt => exact noiof_tickIncidentStep h

theorem forall2_map_self {R : α → α → Prop} {l : List α} {g : α → α}
    (h : ∀ a ∈ l, R a (g a)) : List.Forall₂ R l (l.map g) := by
  induction l with
  | nil => exact List.Forall₂.nil
  | cons a l ih =>
      exact List.Forall₂.cons (h a (List.mem_cons_self a l))
        (ih fun x hx => h x (List.mem_cons_of_mem a hx))

theorem mem_available {f : FCR} {s : PoliceStation} {t : ℕ} {o : Officer}
    (h : o ∈ f.get_available_officers s t) :
    o ∈ f.officers ∧ o.assigned_incident = none ∧ o.is_on_duty t = true := by
  unfold FCR.get_available_officers FCR.station_officers at h
  have h1 := List.mem_filter.mp h
  have h2 := List.mem_filter.mp h1.1
  have h3 := h1.2
  simp only [Bool.and_eq_true, decide_eq_true_eq] at h3
  exact ⟨h2.1, h3.1, h3.2⟩

theorem mem_updOfficer_of_ne {f : FCR} {n : ℕ} {g : Officer → Officer} {x : Officer}
    (hx : x ∈ f.officers) (hne : x.id ≠ n) : x ∈ (f.updOfficer n g).officers := by
  rw [updOfficer_officers]
  have hmm := List.mem_map_of_mem (fun o => if o.id = n then g o else o) hx
  simpa [hne] using hmm

theorem mem_updOfficer_of_eq {f : FCR} {n : ℕ} {g : Officer → Officer} {x : Officer}
    (hx : x ∈ f.officers) (heq : x.id = n) : g x ∈ (f.updOfficer n g).officers := by
  rw [updOfficer_officers]
  have hmm := List.mem_map_of_mem (fun o => if o.id = n then g o else o) hx
  simpa [heq] using hmm

theorem stationLe_iff (f : FCR) (inc : Incident) (t : ℕ) (s1 s2 : PoliceStation) :
    f.stationLe inc t s1 s2 = true ↔
      (dist2 s1.location inc.location < dist2 s2.location inc.location ∨
        (dist2 s1.location inc.location = dist2 s2.location inc.location ∧
          ((f.get_available_officers s2 t).length < (f.get_available_officers s1 t).length ∨
            ((f.get_available_officers s1 t).length = (f.get_available_officers s2 t).length ∧
              f.station_workload s1 ≤ f.station_workload s2)))) := by
  unfold FCR.stationLe FCR.stationKey
  rw [lexQZN_eq_true]
  simp [neg_lt_neg_iff, neg_inj, Nat.cast_inj, Nat.cast_lt]

/-- C9: FCR.gen_isr returns the "Inc-{YYYYMMDD}-{id:04d}" string and is a pure
function of the incident's report date (year, month, day) and serial id
alone — any two incidents agreeing on those yield the same ISR, and in
particular repeated calls on one incident yield the same string. -/
theorem gen_isr_deterministic (i1 i2 : Incident)
    (hid : i1.id = i2.id)
    (hy : i1.report_time.year = i2.report_time.year)
    (hm : i1.report_time.month = i2.report_time.month)
    (hd : i1.report_time.day = i2.report_time.day) :
    FCR.gen_isr i1 = FCR.gen_isr i2 ∧
    FCR.gen_isr i1 =
      "Inc-" ++ padZeros 4 i1.report_time.year ++ padZeros 2 i1.report_time.month
        ++ padZeros 2 i1.report_time.day ++ "-" ++ padZeros 4 i1.id := by
  unfold FCR.gen_isr
  rw [hid, hy, hm, hd]
  exact ⟨rfl, rfl⟩

/-- Witness for C9: two incidents sharing only the serial id and report date
receive the same ISR, here the concrete string Inc-20240305-0042. -/
theorem gen_isr_deterministic_witness :
    FCR.gen_isr exIncE1 = FCR.gen_isr exIncE2 ∧
    FCR.gen_isr exIncE1 =
      "Inc-" ++ padZeros 4 exIncE1.report_time.year ++ padZeros 2 exIncE1.report_time.month
        ++ padZeros 2 exIncE1.report_time.day ++ "-" ++ padZeros 4 exIncE1.id :=
  gen_isr_deterministic exIncE1 exIncE2 rfl rfl rfl rfl

/-- C5 (code bug): a NIGHT-shift (22:00-07:00) officer is off duty at 02:00
(and at 12:00) under the source's is_on_duty, because the chained comparison
start_time <= now <= end_time.time() compares bare clock times and is
unsatisfiable whenever the end clock time precedes the start clock time —
the wrapping end-of-shift date computed by Officer.__post_init__ is discarded
by the .time() call. The claim (and the ShiftType documentation) expect the
02:00 query to be on duty. -/
theorem night_shift_is_on_duty_bug :
    exNightOfficer.is_on_duty 120 = false ∧ exNightOfficer.is_on_duty 720 = false ∧
    exNightOfficer.shift.start_time = 1320 ∧ exNightOfficer.shift.end_time = 420 := by
  decide

/-- C4 (code bug): on incidents with priorities [PROMPT, IMMEDIATE, IMMEDIATE]
and report times t1 < t2 < t3, sort_by_priority_and_time returns
[PROMPT@t1, IMMEDIATE@t2, IMMEDIATE@t3] — the negated enum value sorts the
LOWEST priority first — not the claimed [IMMEDIATE@t2, IMMEDIATE@t3,
PROMPT@t1]. (Executed literally the source even raises TypeError, since a
plain Python Enum member cannot be negated.) -/
theorem sort_by_priority_and_time_bug :
    (FCR.sort_by_priority_and_time [exSortI1, exSortI2, exSortI3]).map
        (fun i => (i.id, i.priority)) = [(1, .PROMPT), (2, .IMMEDIATE), (3, .IMMEDIATE)] ∧
    (FCR.sort_by_priority_and_time [exSortI1, exSortI2, exSortI3]).map
        (fun i => (i.id, i.priority)) ≠ [(2, .IMMEDIATE), (3, .IMMEDIATE), (1, .PROMPT)] := by
  decide

/-- C8: when no station's response area contains the incident's location, or
every candidate station in priority order has no available officer,
assign_incident leaves the whole FCR state exactly as it was — the incident
keeps its REPORTED status and empty bindings and stays in the incident list
for later retries, and no officer is touched. -/
theorem assign_incident_failure_no_change (f : FCR) (inc : Incident) (t : ℕ)
    (h : (∀ s ∈ f.stations, s.contains inc.location = false) ∨
         (∀ s ∈ f.determine_station_priority inc t, f.get_available_officers s t = [])) :
    f.assign_incident inc t = f := by
  rcases h with h | h
  · unfold FCR.assign_incident FCR.determine_station_priority
    have hfil : f.stations.filter (fun s => s.contains inc.location) = [] :=
      List.filter_eq_nil_iff.mpr (fun s hs => by simp [h s hs])
    rw [hfil]
    rfl
  · exact tryStations_no_officers _ h

/-- Witness for C8: a state whose only station covers nothing is unchanged by
an assignment attempt, so the incident stays REPORTED and unbound. -/
theorem assign_incident_failure_no_change_witness :
    exD.assign_incident exIncD 540 = exD ∧ exIncD.status = .REPORTED ∧
    exIncD.station = none ∧ exIncD.assigned_officer = none :=
  ⟨assign_incident_failure_no_change exD exIncD 540 (Or.inl (by decide)), rfl, rfl, rfl⟩

theorem not_samePair_symmetric : Symmetric (fun r1 r2 : TTRow => ¬ samePair r1 r2) := by
  intro r1 r2 h hs
  apply h
  unfold samePair at *
  tauto

theorem lookupPair_symm (table : List TTRow)
    (h : table.Pairwise (fun r1 r2 => ¬ samePair r1 r2)) (i j : ℕ) :
    lookupPair table i j = lookupPair table j i := by
  by_cases hij : i = j
  · rw [hij]
  · unfold lookupPair
    cases hA : table.find? (fun r => r.point1_index = i && r.point2_index = j) with
    | none =>
        cases hB : table.find? (fun r => r.point1_index = j && r.point2_index = i) with
        | none => rfl
        | some rb => rfl
    | some ra =>
        cases hB : table.find? (fun r => r.point1_index = j && r.point2_index = i) with
        | none => rfl
        | some rb =>
            exfalso
            have hmema : ra ∈ table := List.mem_of_find?_eq_some hA
            have hmemb : rb ∈ table := List.mem_of_find?_eq_some hB
            have hpa := List.find?_some hA
            have hpb := List.find?_some hB
            simp only [Bool.and_eq_true, decide_eq_true_eq] at hpa hpb
            have hne : ra ≠ rb := by
              intro he
              apply hij
              rw [← hpa.1, he, hpb.1]
            have hns := (List.Pairwise.forall not_samePair_symmetric h) hmema hmemb hne
            exact hns (Or.inr ⟨hpa.1.trans hpb.2.symm, hpa.2.trans hpb.1.symm⟩)

/-- C10: provided the travel-time table holds at most one row per unordered
pair of sampled-point indices, get_travel_time_and_distance is symmetric in
origin and destination: either both directions find the stored row (in one
orientation or the other) or both report no route. -/
theorem travel_time_lookup_symm (points : List Pt) (table : List TTRow)
    (h : table.Pairwise (fun r1 r2 => ¬ samePair r1 r2)) (origin dest : Pt) :
    get_travel_time_and_distance points table origin dest =
      get_travel_time_and_distance points table dest origin := by
  unfold get_travel_time_and_distance
  exact lookupPair_symm table h _ _

/-- Witness for C10: on a concrete one-row table the lookup agrees in both
directions. -/
theorem travel_time_lookup_symm_witness :
    List.Pairwise (fun r1 r2 => ¬ samePair r1 r2) exTTTable ∧
    get_travel_time_and_distance exTTPoints exTTTable (0, 0) (10, 0) =
      get_travel_time_and_distance exTTPoints exTTTable (10, 0) (0, 0) :=
  ⟨by decide, travel_time_lookup_symm exTTPoints exTTTable (by decide) (0, 0) (10, 0)⟩

/-- C6 (amended): determine_station_priority returns exactly the stations
whose response area contains the incident's location, ordered by ascending
distance, then descending available-officer count, then ascending count of
ALL incidents assigned to the station (the source counts every incident whose
station field names the station, resolved ones included, not only open
ones). -/
theorem determine_station_priority_order (f : FCR) (inc : Incident) (t : ℕ) :
    List.Perm (f.determine_station_priority inc t)
      (f.stations.filter (fun s => s.contains inc.location)) ∧
    List.Pairwise (fun s1 s2 =>
      dist2 s1.location inc.location < dist2 s2.location inc.location ∨
      (dist2 s1.location inc.location = dist2 s2.location inc.location ∧
        ((f.get_available_officers s2 t).length < (f.get_available_officers s1 t).length ∨
          ((f.get_available_officers s1 t).length = (f.get_available_officers s2 t).length ∧
            f.station_workload s1 ≤ f.station_workload s2))))
      (f.determine_station_priority inc t) := by
  constructor
  · exact sortBy_perm _ _
  · have hp := sortBy_pairwise (f.stationLe inc t)
      (fun a b => lexQZN_total _ _) (fun a b c => lexQZN_trans _ _ _)
      (f.stations.filter (fun s => s.contains inc.location))
    exact hp.imp (fun hab => (stationLe_iff f inc t _ _).mp hab)

/-- Counterexample to C6 as stated: with both stations equidistant and equally
staffed, station 1 carrying two RESOLVED incidents and station 2 one open
incident, the source ranks station 2 first (total workload 1 < 2), whereas
ordering by OPEN workload (0 < 1) as the claim states would put station 1
first — the returned list is not sorted by the claimed key. -/
theorem determine_station_priority_open_workload_cex :
    (exB.determine_station_priority exIncB0 540).map (fun s => s.id) = [2, 1] ∧
    spec_openWorkload exB exStB1 = 0 ∧ spec_openWorkload exB exStB2 = 1 ∧
    dist2 exStB1.location exIncB0.location = dist2 exStB2.location exIncB0.location ∧
    (exB.get_available_officers exStB1 540).length =
      (exB.get_available_officers exStB2 540).length ∧
    sortedBy (spec_stationLe exB exIncB0 540) (exB.determine_station_priority exIncB0 540)
      = false := by
  norm_num [exB, exStB1, exStB2, exIncB0, exIncB1, exIncB2, exIncB3,
    FCR.determine_station_priority, sortBy, oInsert, FCR.stationLe, FCR.stationKey, lexQZN,
    dist2, FCR.get_available_officers, FCR.station_officers, FCR.station_workload,
    spec_openWorkload, spec_stationLe, sortedBy]
  decide

theorem exA1_officers_eq : exA1.officers = [exOfficer1b, exOfficer2] := by
  norm_num [exA1, exA0, FCR.assign_incident, FCR.determine_station_priority, sortBy, oInsert,
    FCR.tryStations, FCR.assign_officer_to_incident, FCR.get_available_officers,
    FCR.station_officers, Officer.is_on_duty, FCR.bindOfficer, FCR.updIncident, FCR.updOfficer,
    pyMinBy, dist2, exStation, exOfficer1, exOfficer2, exOfficer1b, exIncidentA,
    Shift.start_time, Shift.end_time, ShiftType.start_hour, ShiftType.end_hour]

theorem exA1_incidents_eq : exA1.incidents = [exIncidentA1] := by
  norm_num [exA1, exA0, FCR.assign_incident, FCR.determine_station_priority, sortBy, oInsert,
    FCR.tryStations, FCR.assign_officer_to_incident, FCR.get_available_officers,
    FCR.station_officers, Officer.is_on_duty, FCR.bindOfficer, FCR.updIncident, FCR.updOfficer,
    pyMinBy, dist2, exStation, exOfficer1, exOfficer2, exIncidentA, exIncidentA1,
    Shift.start_time, Shift.end_time, ShiftType.start_hour, ShiftType.end_hour]

theorem exA2_incidents_eq : exA2.incidents = [exIncidentA2] := by
  norm_num [exA2, exA1, exA0, FCR.assign_incident, FCR.determine_station_priority, sortBy,
    oInsert, FCR.tryStations, FCR.assign_officer_to_incident, FCR.get_available_officers,
    FCR.station_officers, Officer.is_on_duty, FCR.bindOfficer, FCR.updIncident, FCR.updOfficer,
    pyMinBy, dist2, exStation, exOfficer1, exOfficer2, exIncidentA, exIncidentA2,
    FCR.tickIncidentStep, tickIncident, tickArrive, tickResolve, FCR.releaseOfficer,
    FCR.stationMajorOfficers, Shift.start_time, Shift.end_time, ShiftType.start_hour,
    ShiftType.end_hour]

theorem exA2_officers_eq : exA2.officers = [exOfficer1b, exOfficer2] := by
  norm_num [exA2, exA1, exA0, FCR.assign_incident, FCR.determine_station_priority, sortBy,
    oInsert, FCR.tryStations, FCR.assign_officer_to_incident, FCR.get_available_officers,
    FCR.station_officers, Officer.is_on_duty, FCR.bindOfficer, FCR.updIncident, FCR.updOfficer,
    pyMinBy, dist2, exStation, exOfficer1, exOfficer2, exOfficer1b, exIncidentA,
    FCR.tickIncidentStep, tickIncident, tickArrive, tickResolve, FCR.releaseOfficer,
    FCR.stationMajorOfficers, Shift.start_time, Shift.end_time, ShiftType.start_hour,
    ShiftType.end_hour]

theorem exA2_stations_eq : exA2.stations = [exStation] := by
  norm_num [exA2, exA1, exA0, FCR.assign_incident, FCR.determine_station_priority, sortBy,
    oInsert, FCR.tryStations, FCR.assign_officer_to_incident, FCR.get_available_officers,
    FCR.station_officers, Officer.is_on_duty, FCR.bindOfficer, FCR.updIncident, FCR.updOfficer,
    pyMinBy, dist2, exStation, exOfficer1, exOfficer2, exIncidentA,
    FCR.tickIncidentStep, tickIncident, tickArrive, tickResolve, FCR.releaseOfficer,
    FCR.stationMajorOfficers, Shift.start_time, Shift.end_time, ShiftType.start_hour,
    ShiftType.end_hour]

set_option maxHeartbeats 1600000 in
/-- C7 (amended): when the station has no available officer,
assign_officer_to_incident returns failure and leaves the state untouched;
when it has one, the call returns success, selects the available officer at
minimum distance to the incident (the first encountered on ties), marks the
incident EN_ROUTE with the station recorded, binds the chosen officer through
its assigned_incident field, and leaves every officer's status unchanged —
the source, contrary to the claim, never writes ATTENDING_INCIDENT here. -/
theorem assign_officer_to_incident_postcondition (f : FCR) (inc : Incident)
    (s : PoliceStation) (t : ℕ) :
    (f.get_available_officers s t = [] →
        f.assign_officer_to_incident inc s t = (false, f)) ∧
    (∀ o rest, f.get_available_officers s t = o :: rest →
      (f.assign_officer_to_incident inc s t).1 = true ∧
      ∃ m ∈ f.get_available_officers s t,
        (∀ x ∈ f.get_available_officers s t,
            dist2 m.current_location inc.location ≤ dist2 x.current_location inc.location) ∧
        (∃ pre post, f.get_available_officers s t = pre ++ m :: post ∧
            ∀ p ∈ pre,
              dist2 m.current_location inc.location < dist2 p.current_location inc.location) ∧
        { m with assigned_incident := some inc.id } ∈
          (f.assign_officer_to_incident inc s t).2.officers ∧
        (∀ i' ∈ (f.assign_officer_to_incident inc s t).2.incidents,
            (i'.id = inc.id → i'.status = .EN_ROUTE ∧ i'.station = some s.id) ∧
            (i'.id ≠ inc.id → i' ∈ f.incidents)) ∧
        (f.assign_officer_to_incident inc s t).2.officers.map (fun x => x.status) =
          f.officers.map (fun x => x.status)) := by
  constructor
  · intro h
    simp only [FCR.assign_officer_to_incident, h]
  · intro o rest h
    have hres : f.assign_officer_to_incident inc s t =
        (true, f.bindOfficer inc s
          (pyMinBy (fun x => dist2 x.current_location inc.location) o rest)) := by
      simp only [FCR.assign_officer_to_incident, h]
    have hmavail : pyMinBy (fun x => dist2 x.current_location inc.location) o rest ∈
        f.get_available_officers s t := by
      rw [h]
      exact pyMinBy_mem _ o rest
    obtain ⟨hmoff, _, _⟩ := mem_available hmavail
    refine ⟨by rw [hres], pyMinBy (fun x => dist2 x.current_location inc.location) o rest,
      hmavail, ?_, ?_, ?_, ?_, ?_⟩
    · intro x hx
      rw [h] at hx
      exact pyMinBy_le (fun y => dist2 y.current_location inc.location) o rest x hx
    · obtain ⟨pre, post, hsplit, hlt⟩ := pyMinBy_first
        (fun x => dist2 x.current_location inc.location) o rest
      exact ⟨pre, post, by rw [h, hsplit], hlt⟩
    · rw [hres]
      rw [bindOfficer_officers]
      have hmm := List.mem_map_of_mem
        (fun x => if x.id = (pyMinBy (fun y => dist2 y.current_location inc.location) o rest).id
          then { x with assigned_incident := some inc.id } else x) hmoff
      simpa using hmm
    · rw [hres]
      intro i' hi'
      rw [bindOfficer_incidents] at hi'
      obtain ⟨i, hi, hmap⟩ := List.mem_map.mp hi'
      by_cases hid : i.id = inc.id
      · rw [if_pos hid] at hmap
        constructor
        · intro _
          rw [← hmap]
          exact ⟨rfl, rfl⟩
        · intro hne
          exfalso
          apply hne
          rw [← hmap]
          exact hid
      · rw [if_neg hid] at hmap
        constructor
        · intro heq
          exfalso
          apply hid
          rw [← hmap] at heq
          exact heq
        · intro _
          rw [← hmap]
          exact hi
    · rw [hres]
      rw [bindOfficer_officers, List.map_map]
      have hfun : ((fun x : Officer => x.status) ∘
          (fun x =>
            if x.id = (pyMinBy (fun y => dist2 y.current_location inc.location) o rest).id
            then { x with assigned_incident := some inc.id } else x)) =
          fun x : Officer => x.status := by
        funext x
        by_cases hx :
          x.id = (pyMinBy (fun y => dist2 y.current_location inc.location) o rest).id
        · simp [hx]
        · simp [hx]
      rw [hfun]

/-- Witness for C7: at a station with two on-duty free officers the call
succeeds, having seen the concrete availability list. -/
theorem assign_officer_to_incident_postcondition_witness :
    exA0.get_available_officers exStation 540 = [exOfficer1, exOfficer2] ∧
    (exA0.assign_officer_to_incident exIncidentA exStation 540).1 = true := by
  have havail : exA0.get_available_officers exStation 540 = [exOfficer1, exOfficer2] := by
    norm_num [exA0, FCR.get_available_officers, FCR.station_officers, Officer.is_on_duty,
      exStation, exOfficer1, exOfficer2, Shift.start_time, Shift.end_time,
      ShiftType.start_hour, ShiftType.end_hour]
  exact ⟨havail,
    ((assign_officer_to_incident_postcondition exA0 exIncidentA exStation 540).2
      exOfficer1 [exOfficer2] havail).1⟩

/-- Counterexample to C7 as stated: the successful binding leaves the chosen
officer's status at the dataclass default "available"; it is never set to
ATTENDING_INCIDENT (code "05") as the claim requires. -/
theorem assign_officer_status_unchanged_cex :
    (exA0.assign_officer_to_incident exIncidentA exStation 540).1 = true ∧
    (exA0.assign_officer_to_incident exIncidentA exStation 540).2.officers.map
        (fun o => o.status) = [.s "available", .s "available"] ∧
    StatusVal.s "available" ≠ .pair "05" "Attending incident" := by
  refine ⟨?_, ?_, by decide⟩ <;>
    norm_num [exA0, FCR.assign_officer_to_incident, FCR.get_available_officers,
      FCR.station_officers, Officer.is_on_duty, FCR.bindOfficer, FCR.updIncident,
      FCR.updOfficer, pyMinBy, dist2, exStation, exOfficer1, exOfficer2, exIncidentA,
      Shift.start_time, Shift.end_time, ShiftType.start_hour, ShiftType.end_hour]

/-- C1 (amended): in every state reachable by the FCR operations and the
simulation tick from a state whose incidents carry no officer reference,
every incident's assigned_officer field is still None — no operation of the
source ever writes it, so the claimed incident-side back-pointer (and with it
the bidirectional binding) is never established; bindings live only on the
officer side. -/
theorem incident_officer_ref_invariant (f0 f : FCR) (h0 : NoIncidentOfficerRef f0)
    (hr : Reachable f0 f) : NoIncidentOfficerRef f := by
  induction hr with
  | refl => exact h0
  | tail _ hstep ih => exact step_preserves_noiof hstep ih

/-- Witness for C1: the invariant instantiated along the one-step run that
assigns the concrete incident. -/
theorem incident_officer_ref_invariant_witness : NoIncidentOfficerRef exA1 :=
  incident_officer_ref_invariant exA0 exA1 (by unfold NoIncidentOfficerRef; decide)
    (Relation.ReflTransGen.single
      (Step.assign exA0 exIncidentA 540 (List.mem_singleton.mpr rfl)))

/-- Counterexample to C1 as stated: one reachable assignment step produces an
EN_ROUTE incident whose assigned_officer is still None while officer 1 points
at it — the claimed bidirectional consistency fails in this reachable
state. -/
theorem bidirectional_binding_cex :
    Reachable exA0 exA1 ∧
    exA1.incidents.map (fun i => (i.status, i.assigned_officer)) =
      [(IncidentStatus.EN_ROUTE, none)] ∧
    exA1.officers.map (fun o => o.assigned_incident) = [some 1, none] := by
  refine ⟨Relation.ReflTransGen.single
      (Step.assign exA0 exIncidentA 540 (List.mem_singleton.mpr rfl)), ?_, ?_⟩
  · rw [exA1_incidents_eq]
    rfl
  · rw [exA1_officers_eq]
    rfl

/-- C2 (amended): assign_incident performs no already-assigned check. On an
incident already bound to an officer it is a no-op exactly when no candidate
station has an available officer; as soon as the first candidate station with
available officers exists it binds that station's closest available officer
to the incident IN ADDITION to the existing binding, so two distinct officers
end up bound to the same incident. -/
theorem assign_incident_not_idempotent (f : FCR) (inc : Incident) (o : Officer) (t : ℕ)
    (hnodup : (f.officers.map (fun x => x.id)).Nodup)
    (ho : o ∈ f.officers) (hbound : o.assigned_incident = some inc.id) :
    ((∀ s ∈ f.determine_station_priority inc t, f.get_available_officers s t = []) →
        f.assign_incident inc t = f) ∧
    (∀ pre s post, f.determine_station_priority inc t = pre ++ s :: post →
      (∀ p ∈ pre, f.get_available_officers p t = []) →
      ∀ o2 rest, f.get_available_officers s t = o2 :: rest →
        o ∈ (f.assign_incident inc t).officers ∧
        ∃ oc ∈ (f.assign_incident inc t).officers,
          oc.id ≠ o.id ∧ oc.assigned_incident = some inc.id) := by
  constructor
  · intro h
    exact tryStations_no_officers _ h
  · intro pre s post hsplit hpre o2 rest havail
    have hres : f.assign_incident inc t =
        f.bindOfficer inc s
          (pyMinBy (fun x => dist2 x.current_location inc.location) o2 rest) := by
      unfold FCR.assign_incident
      rw [hsplit]
      exact tryStations_success pre s post o2 rest hpre havail
    have hmavail : pyMinBy (fun x => dist2 x.current_location inc.location) o2 rest ∈
        f.get_available_officers s t := by
      rw [havail]
      exact pyMinBy_mem _ o2 rest
    obtain ⟨hmoff, hmnone, _⟩ := mem_available hmavail
    have hmne : (pyMinBy (fun x => dist2 x.current_location inc.location) o2 rest).id ≠ o.id := by
      intro he
      have heqo : pyMinBy (fun x => dist2 x.current_location inc.location) o2 rest = o :=
        List.inj_on_of_nodup_map hnodup hmoff ho he
      rw [heqo, hbound] at hmnone
      exact Option.noConfusion hmnone
    constructor
    · rw [hres, bindOfficer_officers]
      have hmm := List.mem_map_of_mem
        (fun x => if x.id = (pyMinBy (fun y => dist2 y.current_location inc.location) o2 rest).id
          then { x with assigned_incident := some inc.id } else x) ho
      simpa [Ne.symm hmne] using hmm
    · refine ⟨{ pyMinBy (fun x => dist2 x.current_location inc.location) o2 rest with
          assigned_incident := some inc.id }, ?_, hmne, rfl⟩
      rw [hres, bindOfficer_officers]
      have hmm := List.mem_map_of_mem
        (fun x => if x.id = (pyMinBy (fun y => dist2 y.current_location inc.location) o2 rest).id
          then { x with assigned_incident := some inc.id } else x) hmoff
      simpa using hmm

theorem exA1_stations_eq : exA1.stations = [exStation] := by
  norm_num [exA1, exA0, FCR.assign_incident, FCR.determine_station_priority, sortBy, oInsert,
    FCR.tryStations, FCR.assign_officer_to_incident, FCR.get_available_officers,
    FCR.station_officers, Officer.is_on_duty, FCR.bindOfficer, FCR.updIncident, FCR.updOfficer,
    pyMinBy, dist2, exStation, exOfficer1, exOfficer2, exIncidentA,
    Shift.start_time, Shift.end_time, ShiftType.start_hour, ShiftType.end_hour]

theorem exA1_eq :
    exA1 = { stations := [exStation], officers := [exOfficer1b, exOfficer2],
             incidents := [exIncidentA1] } := by
  rw [← exA1_stations_eq, ← exA1_officers_eq, ← exA1_incidents_eq]

theorem exA2_eq :
    exA2 = { stations := [exStation], officers := [exOfficer1b, exOfficer2],
             incidents := [exIncidentA2] } := by
  rw [← exA2_stations_eq, ← exA2_officers_eq, ← exA2_incidents_eq]

theorem exA1_dsp_eq : exA1.determine_station_priority exIncidentA1 540 = [exStation] := by
  rw [exA1_eq]
  norm_num [FCR.determine_station_priority, sortBy, oInsert, exStation, exIncidentA1,
    exIncidentA]

theorem exA1_avail_eq : exA1.get_available_officers exStation 540 = [exOfficer2] := by
  rw [exA1_eq]
  norm_num [FCR.get_available_officers, FCR.station_officers, Officer.is_on_duty,
    exStation, exOfficer1, exOfficer1b, exOfficer2, Shift.start_time, Shift.end_time,
    ShiftType.start_hour, ShiftType.end_hour, List.filter]
  rfl

/-- Witness for C2: on the already-assigned concrete incident the renewed call
leaves officer 1 bound and binds officer 2 as well. -/
theorem assign_incident_not_idempotent_witness :
    exOfficer1b ∈ (exA1.assign_incident exIncidentA1 540).officers ∧
    ∃ oc ∈ (exA1.assign_incident exIncidentA1 540).officers,
      oc.id ≠ exOfficer1b.id ∧ oc.assigned_incident = some exIncidentA1.id :=
  (assign_incident_not_idempotent exA1 exIncidentA1 exOfficer1b 540
      (by rw [exA1_officers_eq]; decide)
      (by rw [exA1_officers_eq]; exact List.mem_cons_self _ _)
      rfl).2
    [] exStation [] exA1_dsp_eq (by simp) exOfficer2 [] exA1_avail_eq

/-- Counterexample to C2 as stated: in the reachable state exA1 the incident
is already assigned (EN_ROUTE, officer 1 bound), yet assign_incident is not a
no-op — afterwards both officers' assigned_incident fields point at incident
1. -/
theorem assign_incident_second_bind_cex :
    Reachable exA0 exA1 ∧
    exA1.incidents.map (fun i => i.status) = [IncidentStatus.EN_ROUTE] ∧
    exA1.officers.map (fun o => o.assigned_incident) = [some 1, none] ∧
    (exA1.assign_incident exIncidentA1 540).officers.map (fun o => o.assigned_incident) =
      [some 1, some 1] := by
  refine ⟨Relation.ReflTransGen.single
      (Step.assign exA0 exIncidentA 540 (List.mem_singleton.mpr rfl)),
    by rw [exA1_incidents_eq]; rfl, by rw [exA1_officers_eq]; rfl, ?_⟩
  rw [exA1_eq]
  norm_num [FCR.assign_incident, FCR.determine_station_priority, sortBy, oInsert,
    FCR.tryStations, FCR.assign_officer_to_incident, FCR.get_available_officers,
    FCR.station_officers, Officer.is_on_duty, FCR.bindOfficer, FCR.updIncident, FCR.updOfficer,
    pyMinBy, dist2, exStation, exOfficer1, exOfficer1b, exOfficer2, exIncidentA, exIncidentA1,
    Shift.start_time, Shift.end_time, ShiftType.start_hour, ShiftType.end_hour,
    List.filter, List.map]

/-- C3 (amended): a simulation tick only moves an incident's status forward
along REPORTED -> EN_ROUTE -> ATTENDED -> RESOLVED (possibly through two
transitions in one tick when both countdowns have elapsed), and an assignment
attempt on a REPORTED incident leaves every incident's status unchanged except
possibly setting that incident to EN_ROUTE. The claim's "never regresses" part
fails only because assignment is not guarded by status — see the
counterexample, where an ATTENDED incident is re-assigned back to EN_ROUTE. -/
theorem lifecycle_forward (f : FCR) (inc : Incident) (t n : ℕ) (dt : ℚ)
    (hnodup : (f.incidents.map (fun i => i.id)).Nodup)
    (hmem : inc ∈ f.incidents) (hrep : inc.status = .REPORTED) :
    List.Forall₂ (fun a b => a.status.value ≤ b.status.value) f.incidents
      (f.tickIncidentStep n dt).incidents ∧
    List.Forall₂ (fun a b => b.status = a.status ∨ (a = inc ∧ b.status = .EN_ROUTE))
      f.incidents (f.assign_incident inc t).incidents := by
  constructor
  · unfold FCR.tickIncidentStep
    cases hfind : f.incidents.find? (fun i => i.id = n) with
    | none => exact List.forall₂_same.mpr (fun x _ => le_refl _)
    | some i0 =>
        have hi0mem : i0 ∈ f.incidents := List.mem_of_find?_eq_some hfind
        have hi0id : i0.id = n := by
          have hp := List.find?_some hfind
          simpa using hp
        have hcore : List.Forall₂ (fun a b => a.status.value ≤ b.status.value) f.incidents
            (f.updIncident n (fun _ => (tickIncident dt i0).1)).incidents := by
          rw [updIncident_incidents]
          refine forall2_map_self ?_
          intro a ha
          by_cases haid : a.id = n
          · rw [if_pos haid]
            have haeq : a = i0 :=
              List.inj_on_of_nodup_map hnodup ha hi0mem (by rw [haid, hi0id])
            rw [haeq]
            exact tickIncident_mono dt i0
          · rw [if_neg haid]
        show List.Forall₂ (fun a b => a.status.value ≤ b.status.value) f.incidents
          (if (tickIncident dt i0).2 = true then
              (f.updIncident n fun _ => (tickIncident dt i0).1).releaseOfficer n
            else f.updIncident n fun _ => (tickIncident dt i0).1).incidents
        by_cases hb : (tickIncident dt i0).2 = true
        · rw [if_pos hb, releaseOfficer_incidents]
          exact hcore
        · rw [if_neg hb]
          exact hcore
  · rcases assign_incident_cases f inc t with heq | ⟨s, o, rest, _, _, heq⟩
    · rw [heq]
      exact List.forall₂_same.mpr (fun x _ => Or.inl rfl)
    · rw [heq, bindOfficer_incidents]
      refine forall2_map_self ?_
      intro a ha
      by_cases haid : a.id = inc.id
      · rw [if_pos haid]
        exact Or.inr ⟨List.inj_on_of_nodup_map hnodup ha hmem haid, rfl⟩
      · rw [if_neg haid]
        exact Or.inl rfl

/-- Witness for C3: the forward property instantiated on the concrete initial
state, for a 300-second tick on incident 1 and an assignment attempt at
09:00. -/
theorem lifecycle_forward_witness :
    List.Forall₂ (fun a b => a.status.value ≤ b.status.value) exA0.incidents
      (exA0.tickIncidentStep 1 300).incidents ∧
    List.Forall₂ (fun a b => b.status = a.status ∨ (a = exIncidentA ∧ b.status = .EN_ROUTE))
      exA0.incidents (exA0.assign_incident exIncidentA 540).incidents :=
  lifecycle_forward exA0 exIncidentA 540 1 300 (by decide)
    (List.mem_singleton.mpr rfl) rfl

/-- Counterexample to C3 as stated: after reaching a state whose incident is
ATTENDED, a further assignment attempt (a system step) succeeds with the
second free officer and rewrites the status to EN_ROUTE — a regression from
ATTENDED back to EN_ROUTE. -/
theorem lifecycle_regression_cex :
    Reachable exA0 exA2 ∧ Step exA2 exA3 ∧
    exA2.incidents.map (fun i => i.status) = [IncidentStatus.ATTENDED] ∧
    exA3.incidents.map (fun i => i.status) = [IncidentStatus.EN_ROUTE] := by
  have hmem2 : exIncidentA2 ∈ exA2.incidents := by
    rw [exA2_incidents_eq]
    exact List.mem_singleton.mpr rfl
  refine ⟨Relation.ReflTransGen.tail
      (Relation.ReflTransGen.single
        (Step.assign exA0 exIncidentA 540 (List.mem_singleton.mpr rfl)))
      (Step.tick exA1 1 300),
    Step.assign exA2 exIncidentA2 540 hmem2,
    by rw [exA2_incidents_eq]; rfl, ?_⟩
  show (exA2.assign_incident exIncidentA2 540).incidents.map (fun i => i.status) =
    [IncidentStatus.EN_ROUTE]
  rw [exA2_eq]
  norm_num [FCR.assign_incident, FCR.determine_station_priority, sortBy, oInsert,
    FCR.tryStations, FCR.assign_officer_to_incident, FCR.get_available_officers,
    FCR.station_officers, Officer.is_on_duty, FCR.bindOfficer, FCR.updIncident, FCR.updOfficer,
    pyMinBy, dist2, exStation, exOfficer1, exOfficer1b, exOfficer2, exIncidentA, exIncidentA2,
    Shift.start_time, Shift.end_time, ShiftType.start_hour, ShiftType.end_hour,
    List.filter, List.map]
